import Mathlib

/-!
# Verification of `comet/download_utils.py`

A shallow embedding of the download / cache / extract / checkpoint-resolve
logic of `comet/download_utils.py`, together with theorems settling the
specification claims about it.

Modelling conventions:
* The filesystem is an abstract state `FS` giving the answers of
  `os.path.isfile`, `os.path.isdir`, `os.path.exists` and `os.listdir`.
* Side-effecting primitives (`os.makedirs`, `urllib.request.urlretrieve`,
  `zipfile.ZipFile(...).extractall`, the `tar` subprocess calls and
  `os.remove`) are modelled by an abstract semantics `Sem` of
  filesystem transformers; each embedded function additionally returns the
  trace of such calls it performed, as a `List Effect`, so that
  "no network activity", "no extraction", "removed a file" and similar
  frame properties are statable.
* Python exceptions are values of `PyError`; a fallible function returns
  `Except PyError α`.
* Paths are plain strings manipulated exactly as the source manipulates
  them (string concatenation with `os.path.sep`, `os.path.join`);
  string helpers are implemented structurally on `List Char` so that all
  definitions evaluate by kernel reduction.
-/

namespace CometDL

/-- Python exception values raised (or propagated) by the embedded code. -/
inductive PyError
  /-- `AttributeError`, e.g. calling a `pathlib.Path` method on a `str`. -/
  | attributeError (msg : String)
  /-- `ValueError`, raised by the download verification check. -/
  | valueError (msg : String)
  /-- A bare `raise Exception(msg)`. -/
  | genericException (msg : String)
  /-- `IndexError`, e.g. `[][-1]` (list index out of range). -/
  | indexError
deriving DecidableEq

/-- Abstract filesystem state: the answers the `os` module would give. -/
structure FS where
  /-- `os.path.isfile` -/
  isfile : String → Bool
  /-- `os.path.isdir` -/
  isdir : String → Bool
  /-- `os.path.exists` -/
  pathExists : String → Bool
  /-- `os.listdir` (modelling a successful listing of the given path) -/
  listdir : String → List String

/-- One observable side-effecting call performed by the embedded code. -/
inductive Effect
  /-- `os.makedirs dir` -/
  | mkdirs (dir : String)
  /-- `urllib.request.urlretrieve url filename=filepath` -/
  | urlretrieve (url : String) (filepath : String)
  /-- `zipfile.ZipFile(file).extractall(dir)` -/
  | zipExtract (file : String) (dir : String)
  /-- `subprocess.call ["tar", "-C", dir, "-zxvf", file]` -/
  | tarGz (dir : String) (file : String)
  /-- `subprocess.call ["tar", "-C", dir, "-xvf", file]` -/
  | tarPlain (dir : String) (file : String)
  /-- `os.remove path` -/
  | remove (path : String)
deriving DecidableEq

/-- Abstract semantics of the side-effecting primitives: how each call
transforms the filesystem state. The embedded code is parametric in this. -/
structure Sem where
  makedirsEff : String → FS → FS
  urlretrieveEff : String → String → FS → FS
  zipExtractEff : String → String → FS → FS
  tarGzEff : String → String → FS → FS
  tarPlainEff : String → String → FS → FS
  removeEff : String → FS → FS

/-! ## String helpers (structural models of the Python string operations) -/

/-- `suffix.data` is a suffix of `s.data`: models Python `s.endswith(suffix)`. -/
def strEndsWith (s suffix : String) : Bool :=
  suffix.data.isSuffixOf s.data

/-- `pre.data` is a prefix of `s.data`: models Python `s.startswith(pre)`. -/
def strStartsWith (s pre : String) : Bool :=
  pre.data.isPrefixOf s.data

/-- `pat` occurs as a contiguous sublist of `l`. -/
def listHasInfix (pat : List Char) : List Char → Bool
  | [] => pat.isEmpty
  | c :: rest => pat.isPrefixOf (c :: rest) || listHasInfix pat rest

/-- Models the Python containment test `pat in s` on strings. -/
def strContains (s pat : String) : Bool :=
  listHasInfix pat.data s.data

/-- Scan for the first occurrence of `sep`; on a hit, return the part before
it (accumulated reversed in `acc`) and the part after it. -/
def splitFirstAux (sep : List Char) : List Char → List Char → Option (List Char × List Char)
  | [], _ => none
  | c :: rest, acc =>
    if sep.isPrefixOf (c :: rest) then some (acc.reverse, (c :: rest).drop sep.length)
    else splitFirstAux sep rest (c :: acc)

/-- Models Python `s.split(sep, 1)`: split at the first occurrence of `sep`
only; a one-element list when `sep` does not occur. -/
def pySplit1 (s sep : String) : List String :=
  match splitFirstAux sep.data s.data [] with
  | none => [s]
  | some (l, r) => [⟨l⟩, ⟨r⟩]

/-- `os.path.sep` on the POSIX platforms the source targets. -/
def osSep : String := "/"

/-- Models two-argument `os.path.join` (POSIX semantics). -/
def osJoin2 (a b : String) : String :=
  if strStartsWith b osSep then b
  else if a == "" || strEndsWith a osSep then a ++ b
  else a ++ osSep ++ b

/-- Models variadic `os.path.join`. -/
def osJoinAll (a : String) (rest : List String) : String :=
  rest.foldl osJoin2 a

/-- Everything after the last path separator. -/
def basenameAux : List Char → List Char → List Char
  | [], acc => acc.reverse
  | c :: rest, acc =>
    if c = '/' then basenameAux rest [] else basenameAux rest (c :: acc)

/-- Models `os.path.basename` (POSIX semantics). -/
def osBasename (p : String) : String :=
  ⟨basenameAux p.data []⟩

/-- Models `urllib.parse.urlparse(url).path` for the common URL shapes the
source feeds it (`scheme://netloc/path`, optionally with query or fragment):
the fragment and query are cut off, then everything after the netloc. -/
def urlparse_path (url : String) : String :=
  let noFrag := (pySplit1 url "#").headD url
  let noQuery := (pySplit1 noFrag "?").headD noFrag
  match pySplit1 noQuery "://" with
  | [_, rest] =>
    match pySplit1 rest osSep with
    | [_, p] => osSep ++ p
    | _ => ""
  | _ => noQuery

/-! ## The embedded source functions -/

/-- Embeds `_get_filename_from_url` (`download_utils.py` lines 106-116):
the basename of the parsed URL's path component. -/
def _get_filename_from_url (url : String) : String :=
  osBasename (urlparse_path url)

/-- Embeds `_check_download` (lines 119-128):
`all([os.path.isfile(filepath) for filepath in filepaths])`. -/
def _check_download (fs : FS) (filepaths : List String) : Bool :=
  filepaths.all (fun filepath => fs.isfile filepath)

/-- The extension derivation inlined in `_maybe_extract` (lines 82-84):
`basename.split(".", 1)[1]` — everything after the FIRST dot of the
basename; indexing `[1]` raises `IndexError` when there is no dot. -/
def derive_extension (compressed_filename : String) : Except PyError String :=
  match pySplit1 (osBasename compressed_filename) "." with
  | [_, ext] => .ok ext
  | _ => .error .indexError

/-- The extension actually used by `_maybe_extract`: the explicit argument
when supplied, otherwise derived from the filename. -/
def resolve_extension (compressed_filename : String) : Option String → Except PyError String
  | some e => .ok e
  | none => derive_extension compressed_filename

/-- Embeds `_maybe_extract` (lines 72-103): substring-containment dispatch,
first match wins, in the fixed order `zip`, then `tar.gz`/`tgz`, then
`tar`; no match leaves the file as-is. -/
def _maybe_extract (m : Sem) (fs : FS) (compressed_filename directory : String)
    (extension : Option String) : Except PyError Unit × FS × List Effect :=
  match resolve_extension compressed_filename extension with
  | .error e => (.error e, fs, [])
  | .ok ext =>
    if strContains ext "zip" then
      (.ok (), m.zipExtractEff compressed_filename directory fs,
        [Effect.zipExtract compressed_filename directory])
    else if strContains ext "tar.gz" || strContains ext "tgz" then
      (.ok (), m.tarGzEff directory compressed_filename fs,
        [Effect.tarGz directory compressed_filename])
    else if strContains ext "tar" then
      (.ok (), m.tarPlainEff directory compressed_filename fs,
        [Effect.tarPlain directory compressed_filename])
    else
      (.ok (), fs, [])

/-- The message of the `ValueError` raised by the verification check. -/
def downloadFailedMsg : String := "[DOWNLOAD FAILED] *check_files not found"

/-- The body of `download_file_maybe_extract` past the cache short-circuit
(lines 168-184): create the directory if it is not one (`os.makedirs`),
download (`urllib.request.urlretrieve`), maybe extract, then verify the
check files against the resulting state. `filepath` and `check_files2`
arrive already resolved against `directory`. -/
def dfme_body (m : Sem) (fs : FS) (url directory filepath : String)
    (extension : Option String) (check_files2 : List String) :
    Except PyError String × FS × List Effect :=
  let fs1 := if fs.isdir directory then fs else m.makedirsEff directory fs
  let effs1 : List Effect :=
    if fs.isdir directory then [] else [Effect.mkdirs directory]
  let fs2 := m.urlretrieveEff url filepath fs1
  match _maybe_extract m fs2 filepath directory extension with
  | (.error e, fs3, effs3) =>
    (.error e, fs3, effs1 ++ Effect.urlretrieve url filepath :: effs3)
  | (.ok _, fs3, effs3) =>
    ((if _check_download fs3 check_files2 then .ok filepath
      else .error (.valueError downloadFailedMsg)),
      fs3, effs1 ++ Effect.urlretrieve url filepath :: effs3)

/-- Embeds `download_file_maybe_extract` (lines 131-184): resolve the
filename, short-circuit when there are check files and all of them exist
already, otherwise run the download / extract / verify body. -/
def download_file_maybe_extract (m : Sem) (fs : FS) (url directory : String)
    (filename : Option String) (extension : Option String)
    (check_files : List String) : Except PyError String × FS × List Effect :=
  let filename := filename.getD (_get_filename_from_url url)
  let filepath := osJoin2 directory filename
  let check_files := check_files.map (fun f => osJoin2 directory f)
  if decide (0 < check_files.length) && _check_download fs check_files then
    (.ok filepath, fs, [])
  else
    dfme_body m fs url directory filepath extension check_files

/-! ## `get_cache_folder` and `download_model` -/

/-- A Python value that is either a `str` or a `pathlib.Path`; needed
because `get_cache_folder` calls `Path` methods on the result of
`os.path.join`, which is a `str`. -/
inductive PyBase
  | pystr (s : String)
  | pypath (s : String)

/-- The underlying characters (`str(x)`). -/
def PyBase.strVal : PyBase → String
  | .pystr s => s
  | .pypath s => s

/-- The message of the `AttributeError` raised when `.exists()` is called
on a `str`. -/
def strNoExistsMsg : String := "str object has no attribute exists"

/-- Attribute lookup and call of `.exists()`: defined on `pathlib.Path`,
an `AttributeError` on `str`. -/
def pyExistsMethod (fs : FS) : PyBase → Except PyError Bool
  | .pystr _ => .error (.attributeError strNoExistsMsg)
  | .pypath p => .ok (fs.pathExists p)

/-- Attribute lookup and call of `.mkdir(exist_ok=True, parents=True)`:
defined on `pathlib.Path`, an `AttributeError` on `str`. -/
def pyMkdirMethod (m : Sem) (fs : FS) : PyBase → Except PyError (FS × List Effect)
  | .pystr _ => .error (.attributeError "str object has no attribute mkdir")
  | .pypath p => .ok (m.makedirsEff p fs, [Effect.mkdirs p])

/-- Embeds `get_cache_folder` (lines 32-42). Note that
`os.path.join(Path.home(), ".cache", "torch", "unbabel_comet")` returns a
`str` even though its first argument is a `pathlib.Path`, so the value
bound to `cache_directory` is a `.pystr` and the subsequent
`cache_directory.exists()` raises `AttributeError`. -/
def get_cache_folder (m : Sem) (fs : FS) (home : String) :
    Except PyError String × FS × List Effect :=
  let cache_directory : PyBase :=
    .pystr (osJoinAll home [".cache", "torch", "unbabel_comet"])
  match pyExistsMethod fs cache_directory with
  | .error e => (.error e, fs, [])
  | .ok b =>
    if b then (.ok cache_directory.strVal, fs, [])
    else
      match pyMkdirMethod m fs cache_directory with
      | .error e => (.error e, fs, [])
      | .ok (fs1, effs1) => (.ok cache_directory.strVal, fs1, effs1)

/-- One exists-then-remove step of the "CLEAN Cache" block:
`if os.path.exists(base + suffix): os.remove(base + suffix)`, applied to a
state-and-trace pair. -/
def clean_one (m : Sem) (suffix base : String) (st : FS × List Effect) :
    FS × List Effect :=
  if st.1.pathExists (base ++ suffix) then
    (m.removeEff (base ++ suffix) st.1, st.2 ++ [Effect.remove (base ++ suffix)])
  else st

/-- Embeds the "CLEAN Cache" block of `download_model` (lines 236-241):
three sequential exists-then-remove checks against `base ++ suffix` for the
suffixes `.zip`, `.tar.gz`, `.tar`, each check seeing the state left by the
previous removal. There is no surrounding exception handler. -/
def clean_cache (m : Sem) (fs : FS) (base : String) : FS × List Effect :=
  clean_one m ".tar" base (clean_one m ".tar.gz" base (clean_one m ".zip" base (fs, [])))

/-- The message of the exception raised for a model name absent from
`available_metrics` (line 223-225). -/
def unknownModelMsg (model : String) : String :=
  model ++ " is not in the available_metrics or is a valid checkpoint path."

/-- Embeds the `if/elif/elif/else` branch of `download_model`
(lines 217-233). `registry` stands for the imported `available_metrics`
mapping. On a cache hit the model name gets `os.path.sep` appended (unless
it already ends with it); on a registry hit with a `https://` URL the
download is performed; otherwise an exception is raised. Returns the
(possibly updated) model name. -/
def download_model_branch (m : Sem) (registry : List (String × String)) (fs : FS)
    (saving_directory model : String) : Except PyError String × FS × List Effect :=
  if fs.isdir (saving_directory ++ model) then
    (.ok (if strEndsWith model osSep then model else model ++ osSep), fs, [])
  else
    match registry.lookup model with
    | none => (.error (.genericException (unknownModelMsg model)), fs, [])
    | some url =>
      if strStartsWith url "https://" then
        match download_file_maybe_extract m fs url saving_directory none none [] with
        | (.ok _, fs1, effs1) => (.ok model, fs1, effs1)
        | (.error e, fs1, effs1) => (.error e, fs1, effs1)
      else
        (.error (.genericException "Invalid model name!"), fs, [])

/-- Embeds `download_model` (lines 187-249). `home` is the value of
`Path.home()`. The final step lists the checkpoints folder, filters
entries ending in `".ckpt"`, and indexes `[-1]` — which raises
`IndexError` on an empty list — then joins the folder with the selected
name. -/
def download_model (m : Sem) (registry : List (String × String)) (home : String)
    (fs : FS) (model : String) (saving_directory : Option String) :
    Except PyError String × FS × List Effect :=
  match (match saving_directory with
         | none => get_cache_folder m fs home
         | some d => (.ok d, fs, ([] : List Effect))) with
  | (.error e, fs0, effs0) => (.error e, fs0, effs0)
  | (.ok d0, fs0, effs0) =>
    let d := if strEndsWith d0 osSep then d0 else d0 ++ osSep
    let fs1 := if fs0.pathExists d then fs0 else m.makedirsEff d fs0
    let effs1 : List Effect := if fs0.pathExists d then [] else [Effect.mkdirs d]
    match download_model_branch m registry fs1 d model with
    | (.error e, fs2, effs2) => (.error e, fs2, effs0 ++ effs1 ++ effs2)
    | (.ok model2, fs2, effs2) =>
      let st3 := clean_cache m fs2 (d ++ model2)
      let checkpoints_folder := d ++ model2 ++ osSep ++ "checkpoints"
      let checkpoints :=
        (st3.1.listdir checkpoints_folder).filter (fun file => strEndsWith file ".ckpt")
      match checkpoints.getLast? with
      | none => (.error .indexError, st3.1, effs0 ++ effs1 ++ effs2 ++ st3.2)
      | some checkpoint =>
        (.ok (osJoin2 checkpoints_folder checkpoint), st3.1,
          effs0 ++ effs1 ++ effs2 ++ st3.2)

/-- Strict lexicographic order on character lists (by code point). -/
def charListLt : List Char → List Char → Bool
  | [], [] => false
  | [], _ :: _ => true
  | _ :: _, [] => false
  | a :: as, b :: bs =>
    if a.toNat < b.toNat then true
    else if b.toNat < a.toNat then false
    else charListLt as bs

/-- Strict lexicographic order on strings. -/
def strLt (a b : String) : Bool := charListLt a.data b.data

/-- Follows the SPEC's words (not the source): "select the
lexicographically maximal filename after ascending sort" of the filtered
directory listing — i.e. the maximum of the `".ckpt"`-filtered listing
under the lexicographic string order. For comparison with the source's
actual selection, which takes the last element of the unsorted listing. -/
def spec_selected_checkpoint (listing : List String) : Option String :=
  match listing.filter (fun file => strEndsWith file ".ckpt") with
  | [] => none
  | x :: xs => some (xs.foldl (fun a b => if strLt a b then b else a) x)

/-! ## Concrete instances used by witnesses and counterexamples -/

/-- A semantics in which every side-effecting primitive leaves the
filesystem state unchanged; the effect TRACES are still recorded, which is
all the concrete runs below inspect. -/
def semId : Sem :=
  { makedirsEff := fun _ fs => fs
    urlretrieveEff := fun _ _ fs => fs
    zipExtractEff := fun _ _ fs => fs
    tarGzEff := fun _ _ fs => fs
    tarPlainEff := fun _ _ fs => fs
    removeEff := fun _ fs => fs }

/-- A filesystem on which nothing exists. -/
def fsEmpty : FS :=
  { isfile := fun _ => false
    isdir := fun _ => false
    pathExists := fun _ => false
    listdir := fun _ => [] }

/-- Cache directory `d/` with a cached model directory `d/name` whose
checkpoints folder is enumerated as `["c.ckpt", "a.ckpt"]` — i.e. NOT in
ascending order. (`download_model` builds the folder path by string
concatenation, which on a cache hit yields the double-separator string
`"d/name//checkpoints"`.) -/
def fsC1 : FS :=
  { isfile := fun _ => false
    isdir := fun p => p == "d/name"
    pathExists := fun p => p == "d/"
    listdir := fun p => if p == "d/name//checkpoints" then ["c.ckpt", "a.ckpt"] else [] }

/-- A filesystem on which the two marker files `d/m1` and `d/m2` exist. -/
def fsC3 : FS :=
  { isfile := fun p => p == "d/m1" || p == "d/m2"
    isdir := fun _ => false
    pathExists := fun _ => false
    listdir := fun _ => [] }

/-- Cache directory `d/` exists; `/tmp/m.ckpt` exists as a FILE (a valid
checkpoint path); no model directory exists. -/
def fsC4 : FS :=
  { isfile := fun p => p == "/tmp/m.ckpt"
    isdir := fun _ => false
    pathExists := fun p => p == "d/"
    listdir := fun _ => [] }

/-- Cached model directory `d/m` whose checkpoints folder contains no
`.ckpt` entry. -/
def fsC5 : FS :=
  { isfile := fun _ => false
    isdir := fun p => p == "d/m"
    pathExists := fun p => p == "d/"
    listdir := fun p => if p == "d/m//checkpoints" then ["readme.txt"] else [] }

/-- Cached model directory `d/model` with a leftover top-level archive
`d/model.zip` in the cache directory. -/
def fsC9 : FS :=
  { isfile := fun _ => false
    isdir := fun p => p == "d/model"
    pathExists := fun p => p == "d/" || p == "d/model.zip"
    listdir := fun p => if p == "d/model//checkpoints" then ["x.ckpt"] else [] }

/-- Cached model directory `d/n` containing a file literally named `.zip`
(path `d/n/.zip`), the path the cache-hit cleanup actually probes. -/
def fsC9w : FS :=
  { isfile := fun _ => false
    isdir := fun p => p == "d/n"
    pathExists := fun p => p == "d/" || p == "d/n/.zip"
    listdir := fun p => if p == "d/n//checkpoints" then ["x.ckpt"] else [] }

/-- A filesystem on which `d/mark` exists as a DIRECTORY, not a file. -/
def fsC10 : FS :=
  { isfile := fun _ => false
    isdir := fun p => p == "d/mark"
    pathExists := fun p => p == "d/mark"
    listdir := fun _ => [] }

/-! ## Helper lemmas -/

/-- A `Effect.remove` in the trace of one cleanup step either was already
in the incoming trace or names that step's archive path. -/
theorem clean_one_remove_mem (m : Sem) (suffix base p : String) (st : FS × List Effect)
    (h : Effect.remove p ∈ (clean_one m suffix base st).2) :
    Effect.remove p ∈ st.2 ∨ p = base ++ suffix := by
  unfold clean_one at h
  split at h <;> simp_all

/-- A cleanup step never drops effects from the incoming trace. -/
theorem clean_one_mem_mono (m : Sem) (suffix base : String) (st : FS × List Effect)
    (e : Effect) (h : e ∈ st.2) : e ∈ (clean_one m suffix base st).2 := by
  unfold clean_one
  split <;> simp_all

/-- If the probed archive path exists, the cleanup step records its
removal. -/
theorem clean_one_removes (m : Sem) (suffix base : String) (st : FS × List Effect)
    (h : st.1.pathExists (base ++ suffix) = true) :
    Effect.remove (base ++ suffix) ∈ (clean_one m suffix base st).2 := by
  unfold clean_one
  simp [h]

/-- When none of the three probed archive paths exists, the cleanup block
changes nothing and performs no call. -/
theorem clean_cache_noop (m : Sem) (fs : FS) (base : String)
    (hz : fs.pathExists (base ++ ".zip") = false)
    (hg : fs.pathExists (base ++ ".tar.gz") = false)
    (ht : fs.pathExists (base ++ ".tar") = false) :
    clean_cache m fs base = (fs, []) := by
  unfold clean_cache clean_one
  simp [hz, hg, ht]

/-- Every removal performed by the cleanup block names one of the three
probed archive paths. -/
theorem clean_cache_remove_mem (m : Sem) (fs : FS) (base p : String)
    (h : Effect.remove p ∈ (clean_cache m fs base).2) :
    p = base ++ ".zip" ∨ p = base ++ ".tar.gz" ∨ p = base ++ ".tar" := by
  unfold clean_cache at h
  rcases clean_one_remove_mem _ _ _ _ _ h with h' | h'
  · rcases clean_one_remove_mem _ _ _ _ _ h' with h'' | h''
    · rcases clean_one_remove_mem _ _ _ _ _ h'' with h3 | h3
      · simp at h3
      · exact Or.inl h3
    · exact Or.inr (Or.inl h'')
  · exact Or.inr (Or.inr h')

/-- If `base ++ ".zip"` exists when the cleanup block runs, its removal is
performed. -/
theorem clean_cache_removes_zip (m : Sem) (fs : FS) (base : String)
    (h : fs.pathExists (base ++ ".zip") = true) :
    Effect.remove (base ++ ".zip") ∈ (clean_cache m fs base).2 := by
  unfold clean_cache
  exact clean_one_mem_mono _ _ _ _ _ (clean_one_mem_mono _ _ _ _ _
    (clean_one_removes _ _ _ _ h))

/-- Extraction never records a file removal. -/
theorem remove_not_in_maybe_extract (m : Sem) (fs : FS) (file dir : String)
    (extension : Option String) (p : String) :
    Effect.remove p ∉ (_maybe_extract m fs file dir extension).2.2 := by
  cases hx : resolve_extension file extension with
  | error e => simp [_maybe_extract, hx]
  | ok ext =>
    simp only [_maybe_extract, hx]
    split_ifs <;> simp

/-- The download / extract / verify body never records a file removal. -/
theorem remove_not_in_dfme_body (m : Sem) (fs : FS) (url directory filepath : String)
    (extension : Option String) (check2 : List String) (p : String) :
    Effect.remove p ∉ (dfme_body m fs url directory filepath extension check2).2.2 := by
  intro h
  unfold dfme_body at h
  simp only [] at h
  rcases hmx : _maybe_extract m (m.urlretrieveEff url filepath
      (if fs.isdir directory then fs else m.makedirsEff directory fs))
      filepath directory extension with ⟨r, fs3, effs3⟩
  rw [hmx] at h
  have hne : Effect.remove p ∉ effs3 := by
    have := remove_not_in_maybe_extract m (m.urlretrieveEff url filepath
      (if fs.isdir directory then fs else m.makedirsEff directory fs))
      filepath directory extension p
    rw [hmx] at this
    exact this
  cases r <;> split_ifs at h <;> simp_all

/-- `download_file_maybe_extract` never records a file removal. -/
theorem remove_not_in_dfme (m : Sem) (fs : FS) (url directory : String)
    (filename extension : Option String) (check_files : List String) (p : String) :
    Effect.remove p ∉
      (download_file_maybe_extract m fs url directory filename extension check_files).2.2 := by
  intro h
  unfold download_file_maybe_extract at h
  simp only [] at h
  split at h
  · simp at h
  · exact remove_not_in_dfme_body m fs url directory _ extension _ p h

/-- Under a normalized cache directory path that already exists,
`download_model` reduces to its branch step followed by cleanup and
checkpoint resolution. -/
theorem download_model_some_d (m : Sem) (registry : List (String × String))
    (home : String) (fs : FS) (model d : String)
    (hd : strEndsWith d osSep = true)
    (hex : fs.pathExists d = true) :
    download_model m registry home fs model (some d) =
      (match download_model_branch m registry fs d model with
       | (.error e, fs2, effs2) => (.error e, fs2, effs2)
       | (.ok model2, fs2, effs2) =>
         match (((clean_cache m fs2 (d ++ model2)).1.listdir
             (d ++ model2 ++ osSep ++ "checkpoints")).filter
             (fun file => strEndsWith file ".ckpt")).getLast? with
         | none => (.error .indexError, (clean_cache m fs2 (d ++ model2)).1,
             effs2 ++ (clean_cache m fs2 (d ++ model2)).2)
         | some checkpoint =>
           (.ok (osJoin2 (d ++ model2 ++ osSep ++ "checkpoints") checkpoint),
             (clean_cache m fs2 (d ++ model2)).1,
             effs2 ++ (clean_cache m fs2 (d ++ model2)).2)) := by
  unfold download_model
  simp only [hd, hex, if_true]
  rcases hbr : download_model_branch m registry fs d model with ⟨r, fs2, effs2⟩
  cases r <;> simp

/-- If the configured extension resolves (the explicit argument, or a
filename that contains a dot), extraction finishes without an error. -/
theorem maybe_extract_ok_of_resolve (m : Sem) (fs : FS) (file dir : String)
    (extension : Option String) (ext : String)
    (hx : resolve_extension file extension = .ok ext) :
    ∃ fs3 effs3, _maybe_extract m fs file dir extension = (.ok (), fs3, effs3) := by
  simp only [_maybe_extract, hx]
  split_ifs <;> exact ⟨_, _, rfl⟩

/-- A run of the download / extract / verify body with a resolvable
extension: the result is decided by checking the markers against the
resulting filesystem state, and the download call is always in the
trace. -/
theorem dfme_body_run (m : Sem) (fs : FS) (url directory filepath : String)
    (extension : Option String) (check2 : List String) (e : String)
    (hext : resolve_extension filepath extension = .ok e) :
    (dfme_body m fs url directory filepath extension check2).1 =
      (if _check_download (dfme_body m fs url directory filepath extension check2).2.1 check2
       then .ok filepath else .error (.valueError downloadFailedMsg))
    ∧ Effect.urlretrieve url filepath ∈
        (dfme_body m fs url directory filepath extension check2).2.2 := by
  obtain ⟨fs3, effs3, hmx⟩ := maybe_extract_ok_of_resolve m
    (m.urlretrieveEff url filepath (if fs.isdir directory then fs else m.makedirsEff directory fs))
    filepath directory extension e hext
  unfold dfme_body
  simp only [hmx]
  refine ⟨trivial, ?_⟩
  simp [List.mem_append]

/-! ## The claims -/

/-- Claim C1 (counterexample): the checkpoint selected by `download_model`
is NOT the lexicographically maximal filename regardless of enumeration
order. With the checkpoints folder enumerated as `["c.ckpt", "a.ckpt"]`,
the run returns the path ending in `"a.ckpt"`, while the maximum after
ascending sort is `"c.ckpt"`. -/
theorem c1_counterexample_unsorted_listing :
    (download_model semId [] "/h" fsC1 "name" (some "d/")).1 =
      .ok "d/name//checkpoints/a.ckpt"
    ∧ spec_selected_checkpoint (fsC1.listdir "d/name//checkpoints") = some "c.ckpt"
    ∧ ("d/name//checkpoints/a.ckpt" : String) ≠ "d/name//checkpoints/c.ckpt" :=
  ⟨rfl, by decide, by decide⟩

/-- Claim C1 (amended): whenever `download_model` reaches the
checkpoint-resolution step, it returns the full path of the LAST element,
in filesystem enumeration order, of the `".ckpt"`-filtered listing of the
checkpoints folder — the listing is not sorted, so which file is selected
depends on the enumeration order. -/
theorem c1_selects_last_of_enumeration (m : Sem) (registry : List (String × String))
    (home : String) (fs : FS) (model d model2 c : String) (fsb : FS) (effsb : List Effect)
    (hd : strEndsWith d osSep = true)
    (hex : fs.pathExists d = true)
    (hbr : download_model_branch m registry fs d model = (.ok model2, fsb, effsb))
    (hz : fsb.pathExists (d ++ model2 ++ ".zip") = false)
    (hg : fsb.pathExists (d ++ model2 ++ ".tar.gz") = false)
    (ht : fsb.pathExists (d ++ model2 ++ ".tar") = false)
    (hc : ((fsb.listdir (d ++ model2 ++ osSep ++ "checkpoints")).filter
          (fun file => strEndsWith file ".ckpt")).getLast? = some c) :
    (download_model m registry home fs model (some d)).1 =
      .ok (osJoin2 (d ++ model2 ++ osSep ++ "checkpoints") c) := by
  rw [download_model_some_d m registry home fs model d hd hex, hbr]
  simp only []
  rw [clean_cache_noop m fsb (d ++ model2) hz hg ht]
  simp [hc]

/-- Claim C1 (witness): the amended theorem applied to the concrete
cache-hit run of `c1_counterexample_unsorted_listing`. -/
theorem c1_selects_last_of_enumeration_witness :
    (download_model semId [] "/h" fsC1 "name" (some "d/")).1 =
      .ok (osJoin2 ("d/" ++ "name/" ++ osSep ++ "checkpoints") "a.ckpt") :=
  c1_selects_last_of_enumeration semId [] "/h" fsC1 "name" "d/" "name/" "a.ckpt" fsC1 []
    (by decide) (by decide) rfl (by decide) (by decide) (by decide) (by decide)

/-- Claim C2 (code bug): computing the default save directory never
succeeds. `os.path.join` returns a `str`, so the `.exists()` call inside
`get_cache_folder` raises `AttributeError` on every input, and
`download_model` called without a saving directory propagates that error
before doing anything else. (The path that WOULD be joined follows the
`<home>/.cache/torch/unbabel_comet` convention, as the last conjunct
records.) -/
theorem c2_default_cache_dir_always_raises :
    (∀ (m : Sem) (fs : FS) (home : String),
        get_cache_folder m fs home = (.error (.attributeError strNoExistsMsg), fs, []))
    ∧ (∀ (m : Sem) (registry : List (String × String)) (home : String) (fs : FS)
        (model : String),
        download_model m registry home fs model none =
          (.error (.attributeError strNoExistsMsg), fs, []))
    ∧ osJoinAll "/home/user" [".cache", "torch", "unbabel_comet"] =
        "/home/user/.cache/torch/unbabel_comet" :=
  ⟨fun _ _ _ => rfl, fun _ _ _ _ _ => rfl, rfl⟩

/-- Claim C3: when the check-file list is non-empty and every entry
(resolved against the directory) already exists as a file,
`download_file_maybe_extract` returns `directory/filename` immediately:
the filesystem state is unchanged and the effect trace is empty — no
download, no directory creation, no extraction — and no verification
error is raised. -/
theorem c3_short_circuit_no_effects (m : Sem) (fs : FS) (url directory : String)
    (filename extension : Option String) (check_files : List String)
    (hne : check_files ≠ [])
    (hall : _check_download fs (check_files.map (fun f => osJoin2 directory f)) = true) :
    download_file_maybe_extract m fs url directory filename extension check_files =
      (.ok (osJoin2 directory (filename.getD (_get_filename_from_url url))), fs, []) := by
  have hlen : 0 < check_files.length := List.length_pos.mpr hne
  unfold download_file_maybe_extract
  simp only []
  rw [if_pos (by simp [hall, hlen])]

/-- Claim C3 (witness): the short-circuit on a concrete filesystem where
the two markers `d/m1` and `d/m2` exist. -/
theorem c3_short_circuit_no_effects_witness :
    (["m1", "m2"] : List String) ≠ []
    ∧ _check_download fsC3 (["m1", "m2"].map (fun f => osJoin2 "d" f)) = true
    ∧ download_file_maybe_extract semId fsC3 "https://x.y/f.zip" "d" none none ["m1", "m2"] =
        (.ok (osJoin2 "d" ((none : Option String).getD
            (_get_filename_from_url "https://x.y/f.zip"))), fsC3, []) :=
  ⟨by decide, by decide,
    c3_short_circuit_no_effects semId fsC3 "https://x.y/f.zip" "d" none none ["m1", "m2"]
      (by decide) (by decide)⟩

/-- Claim C4 (counterexample): the "unless it is itself a valid filesystem
path to a checkpoint" fallback does not exist. On a filesystem where
`/tmp/m.ckpt` exists as a file, is absent from the registry and has no
cached model directory, `download_model` still raises the unknown-model
exception instead of using the path. -/
theorem c4_counterexample_checkpoint_path_raises :
    fsC4.isfile "/tmp/m.ckpt" = true
    ∧ (download_model semId [] "/h" fsC4 "/tmp/m.ckpt" (some "d/")).1 =
        .error (.genericException (unknownModelMsg "/tmp/m.ckpt")) :=
  ⟨rfl, rfl⟩

/-- Claim C4 (amended): whenever `<save_directory>/<model_name>` is not an
existing directory and the model name is absent from the registry,
`download_model` raises the unknown-model exception unconditionally —
even when the model name is a valid filesystem path to a checkpoint. -/
theorem c4_unknown_model_always_raises (m : Sem) (registry : List (String × String))
    (home : String) (fs : FS) (model d : String)
    (hd : strEndsWith d osSep = true)
    (hex : fs.pathExists d = true)
    (hdir : fs.isdir (d ++ model) = false)
    (hreg : registry.lookup model = none) :
    (download_model m registry home fs model (some d)).1 =
      .error (.genericException (unknownModelMsg model)) := by
  rw [download_model_some_d m registry home fs model d hd hex]
  unfold download_model_branch
  simp [hdir, hreg]

/-- Claim C4 (witness): the unknown-model failure on a concrete empty
registry. -/
theorem c4_unknown_model_always_raises_witness :
    (download_model semId [] "/h" fsC4 "nonexistent-model-xyz" (some "d/")).1 =
      .error (.genericException (unknownModelMsg "nonexistent-model-xyz")) :=
  c4_unknown_model_always_raises semId [] "/h" fsC4 "nonexistent-model-xyz" "d/"
    (by decide) (by decide) (by decide) (by decide)

/-- Claim C5 (counterexample): with a cached model directory whose
checkpoints folder has no `".ckpt"` entry, `download_model` fails with the
generic `IndexError` of `checkpoints[-1]` on an empty list — not with a
dedicated checkpoint-not-found error: the failure differs from both forms
a deliberate `raise` takes in this code. -/
theorem c5_counterexample_generic_index_error :
    (download_model semId [] "/h" fsC5 "m" (some "d/")).1 = .error PyError.indexError
    ∧ (PyError.indexError ≠ PyError.genericException (unknownModelMsg "m"))
    ∧ (PyError.indexError ≠ PyError.valueError downloadFailedMsg) :=
  ⟨rfl, by decide, by decide⟩

/-- Claim C5 (amended): whenever `download_model` reaches the
checkpoint-resolution step and the `".ckpt"`-filtered listing of the
checkpoints folder is empty, it fails with `IndexError` (an uncaught
list-index-out-of-range from `checkpoints[-1]`), not with a dedicated
error. -/
theorem c5_empty_checkpoint_list_index_error (m : Sem)
    (registry : List (String × String)) (home : String)
    (fs : FS) (model d model2 : String) (fsb : FS) (effsb : List Effect)
    (hd : strEndsWith d osSep = true)
    (hex : fs.pathExists d = true)
    (hbr : download_model_branch m registry fs d model = (.ok model2, fsb, effsb))
    (hz : fsb.pathExists (d ++ model2 ++ ".zip") = false)
    (hg : fsb.pathExists (d ++ model2 ++ ".tar.gz") = false)
    (ht : fsb.pathExists (d ++ model2 ++ ".tar") = false)
    (hc : (fsb.listdir (d ++ model2 ++ osSep ++ "checkpoints")).filter
          (fun file => strEndsWith file ".ckpt") = []) :
    (download_model m registry home fs model (some d)).1 = .error PyError.indexError := by
  rw [download_model_some_d m registry home fs model d hd hex, hbr]
  simp only []
  rw [clean_cache_noop m fsb (d ++ model2) hz hg ht]
  simp [hc]

/-- Claim C5 (witness): the amended theorem applied to the concrete run of
`c5_counterexample_generic_index_error`. -/
theorem c5_empty_checkpoint_list_index_error_witness :
    (download_model semId [] "/h" fsC5 "m" (some "d/")).1 = .error PyError.indexError :=
  c5_empty_checkpoint_list_index_error semId [] "/h" fsC5 "m" "d/" "m/" fsC5 []
    (by decide) (by decide) rfl (by decide) (by decide) (by decide) (by decide)

/-- Claim C6: in a run that performs the transfer and extraction (the
short-circuit did not fire, and the extension resolves), the result is
`.ok filepath` exactly when all markers exist in the resulting filesystem
state (in particular when the list is empty), and the verification
`ValueError` exactly when the list is non-empty and some marker is still
missing afterwards. -/
theorem c6_marker_verification (m : Sem) (fs : FS) (url directory : String)
    (filename extension : Option String) (check_files : List String) (e : String)
    (hsc : check_files = [] ∨
      _check_download fs (check_files.map (fun f => osJoin2 directory f)) = false)
    (hext : resolve_extension (osJoin2 directory (filename.getD (_get_filename_from_url url)))
        extension = .ok e) :
    (download_file_maybe_extract m fs url directory filename extension check_files).1 =
      (if _check_download
            (download_file_maybe_extract m fs url directory filename extension check_files).2.1
            (check_files.map (fun f => osJoin2 directory f))
       then .ok (osJoin2 directory (filename.getD (_get_filename_from_url url)))
       else .error (.valueError downloadFailedMsg)) := by
  have hcond : (decide (0 < (check_files.map (fun f => osJoin2 directory f)).length) &&
      _check_download fs (check_files.map (fun f => osJoin2 directory f))) = false := by
    rcases hsc with h | h
    · subst h; simp
    · simp [h]
  unfold download_file_maybe_extract
  simp only []
  rw [if_neg (by simp only [hcond]; exact Bool.false_ne_true)]
  exact (dfme_body_run m fs url directory _ extension _ e hext).1

/-- Claim C6 (witness): a concrete run where the declared marker is still
missing afterwards fails with the verification error, and a concrete run
with no markers returns the file path. -/
theorem c6_marker_verification_witness :
    (download_file_maybe_extract semId fsEmpty "https://x.y/f.zip" "d" (some "f.zip")
        (some "zip") ["marker"]).1 = .error (.valueError downloadFailedMsg)
    ∧ (download_file_maybe_extract semId fsEmpty "https://x.y/g.zip" "d" (some "g.zip")
        (some "zip") []).1 =
      .ok (osJoin2 "d" ((some "g.zip" : Option String).getD
          (_get_filename_from_url "https://x.y/g.zip"))) :=
  ⟨(c6_marker_verification semId fsEmpty "https://x.y/f.zip" "d" (some "f.zip")
      (some "zip") ["marker"] "zip" (Or.inr (by decide)) rfl).trans rfl,
   (c6_marker_verification semId fsEmpty "https://x.y/g.zip" "d" (some "g.zip")
      (some "zip") [] "zip" (Or.inl rfl) rfl).trans rfl⟩

/-- Claim C7: with no explicit extension argument, the archive extension
is everything after the FIRST dot of the filename: `"model.tar.gz"` gives
`"tar.gz"`, `"model.zip"` gives `"zip"`, and a dotless filename fails with
`IndexError`; and this derivation is exactly what `_maybe_extract` uses
when the extension argument is absent. -/
theorem c7_extension_after_first_dot :
    derive_extension "model.tar.gz" = .ok "tar.gz"
    ∧ derive_extension "model.zip" = .ok "zip"
    ∧ derive_extension "modelnoext" = .error .indexError
    ∧ ∀ filename, resolve_extension filename none = derive_extension filename :=
  ⟨rfl, rfl, rfl, fun _ => rfl⟩

/-- Claim C8: extraction dispatch is substring containment in the fixed
order `zip`, then `tar.gz`/`tgz`, then `tar`, first match winning: any
extension containing `"zip"` takes the zip strategy regardless of what
else it contains; the gzip tar strategy needs no `"zip"` but `"tar.gz"` or
`"tgz"`; the plain tar strategy needs `"tar"` and none of the earlier
substrings; with none of them, the state is unchanged and no effect is
recorded (the file is left as-is). -/
theorem c8_dispatch_first_match_wins (m : Sem) (fs : FS) (file directory ext : String) :
    (strContains ext "zip" = true →
      _maybe_extract m fs file directory (some ext) =
        (.ok (), m.zipExtractEff file directory fs, [Effect.zipExtract file directory]))
    ∧ (strContains ext "zip" = false →
        (strContains ext "tar.gz" = true ∨ strContains ext "tgz" = true) →
      _maybe_extract m fs file directory (some ext) =
        (.ok (), m.tarGzEff directory file fs, [Effect.tarGz directory file]))
    ∧ (strContains ext "zip" = false → strContains ext "tar.gz" = false →
        strContains ext "tgz" = false → strContains ext "tar" = true →
      _maybe_extract m fs file directory (some ext) =
        (.ok (), m.tarPlainEff directory file fs, [Effect.tarPlain directory file]))
    ∧ (strContains ext "zip" = false → strContains ext "tar.gz" = false →
        strContains ext "tgz" = false → strContains ext "tar" = false →
      _maybe_extract m fs file directory (some ext) = (.ok (), fs, [])) := by
  refine ⟨fun h1 => ?_, fun h1 h2 => ?_, fun h1 h2 h3 h4 => ?_, fun h1 h2 h3 h4 => ?_⟩ <;>
    unfold _maybe_extract resolve_extension
  · simp [h1]
  · rcases h2 with h2 | h2 <;> simp [h1, h2]
  · simp [h1, h2, h3, h4]
  · simp [h1, h2, h3, h4]

/-- Claim C8 (witness): the extension `"ztar.gzip"` contains `"zip"`,
`"tar.gz"` and `"tar"`, and the zip strategy wins; `"ckpt"` contains none
of the substrings and nothing is extracted. -/
theorem c8_dispatch_first_match_wins_witness :
    _maybe_extract semId fsEmpty "f.bin" "d" (some "ztar.gzip") =
      (.ok (), semId.zipExtractEff "f.bin" "d" fsEmpty, [Effect.zipExtract "f.bin" "d"])
    ∧ strContains "ztar.gzip" "tar.gz" = true
    ∧ strContains "ztar.gzip" "tar" = true
    ∧ _maybe_extract semId fsEmpty "f.bin" "d" (some "ckpt") = (.ok (), fsEmpty, []) :=
  ⟨(c8_dispatch_first_match_wins semId fsEmpty "f.bin" "d" "ztar.gzip").1 (by decide),
   by decide, by decide,
   (c8_dispatch_first_match_wins semId fsEmpty "f.bin" "d" "ckpt").2.2.2
     (by decide) (by decide) (by decide) (by decide)⟩

/-- Claim C9 (counterexample): on a cache hit with a leftover top-level
archive `d/model.zip` present, `download_model` completes normally with an
EMPTY effect trace — the leftover `<model_name>.zip` is NOT removed,
because the separator appended to the model name makes the cleanup probe
`d/model/.zip` instead. -/
theorem c9_counterexample_leftover_zip_not_removed :
    fsC9.pathExists "d/model.zip" = true
    ∧ (download_model semId [] "/h" fsC9 "model" (some "d/")).2.2 = []
    ∧ (download_model semId [] "/h" fsC9 "model" (some "d/")).1 =
        .ok "d/model//checkpoints/x.ckpt" :=
  ⟨rfl, rfl, rfl⟩

/-- Claim C9 (amended): the cleanup step removes exactly the archives at
the three probed paths. On a fresh download the probed paths are
`<dir><model>.zip` / `.tar.gz` / `.tar` as the claim says; but on a cache
hit the separator has already been appended to the model name, so the
probed paths are `<dir><model>/.zip` / `/.tar.gz` / `/.tar` (files inside
the model directory), and a leftover `<dir><model>.zip` is never
removed. -/
theorem c9_cleanup_probed_paths (m : Sem) (registry : List (String × String))
    (home : String) (fs : FS) (model d : String)
    (hd : strEndsWith d osSep = true)
    (hex : fs.pathExists d = true) :
    (fs.isdir (d ++ model) = true → strEndsWith model osSep = false →
      ((∀ p, Effect.remove p ∈ (download_model m registry home fs model (some d)).2.2 →
          p = d ++ (model ++ osSep) ++ ".zip" ∨ p = d ++ (model ++ osSep) ++ ".tar.gz"
          ∨ p = d ++ (model ++ osSep) ++ ".tar")
       ∧ (fs.pathExists (d ++ (model ++ osSep) ++ ".zip") = true →
          Effect.remove (d ++ (model ++ osSep) ++ ".zip") ∈
            (download_model m registry home fs model (some d)).2.2)))
    ∧ (∀ url s fsb effsb, fs.isdir (d ++ model) = false →
        registry.lookup model = some url → strStartsWith url "https://" = true →
        download_file_maybe_extract m fs url d none none [] = (.ok s, fsb, effsb) →
        ((∀ p, Effect.remove p ∈ (download_model m registry home fs model (some d)).2.2 →
            p = d ++ model ++ ".zip" ∨ p = d ++ model ++ ".tar.gz" ∨ p = d ++ model ++ ".tar")
         ∧ (fsb.pathExists (d ++ model ++ ".zip") = true →
            Effect.remove (d ++ model ++ ".zip") ∈
              (download_model m registry home fs model (some d)).2.2))) := by
  constructor
  · intro hdir hms
    have hbr : download_model_branch m registry fs d model = (.ok (model ++ osSep), fs, []) := by
      unfold download_model_branch
      simp [hdir, hms]
    rw [download_model_some_d m registry home fs model d hd hex, hbr]
    simp only []
    constructor
    · intro p hp
      rcases hmatch : (((clean_cache m fs (d ++ (model ++ osSep))).1.listdir
          (d ++ (model ++ osSep) ++ osSep ++ "checkpoints")).filter
          (fun file => strEndsWith file ".ckpt")).getLast? with _ | c <;>
        rw [hmatch] at hp <;>
        simp only [List.nil_append] at hp <;>
        exact clean_cache_remove_mem m fs (d ++ (model ++ osSep)) p hp
    · intro hzip
      rcases hmatch : (((clean_cache m fs (d ++ (model ++ osSep))).1.listdir
          (d ++ (model ++ osSep) ++ osSep ++ "checkpoints")).filter
          (fun file => strEndsWith file ".ckpt")).getLast? with _ | c <;>
        exact clean_cache_removes_zip m fs (d ++ (model ++ osSep)) hzip
  · intro url s fsb effsb hdir hreg hurl hdl
    have hbr : download_model_branch m registry fs d model = (.ok model, fsb, effsb) := by
      unfold download_model_branch
      simp [hdir, hreg, hurl, hdl]
    have hnr : ∀ p, Effect.remove p ∉ effsb := by
      intro p
      have h := remove_not_in_dfme m fs url d none none [] p
      rw [hdl] at h
      exact h
    rw [download_model_some_d m registry home fs model d hd hex, hbr]
    simp only []
    constructor
    · intro p hp
      rcases hmatch : (((clean_cache m fsb (d ++ model)).1.listdir
          (d ++ model ++ osSep ++ "checkpoints")).filter
          (fun file => strEndsWith file ".ckpt")).getLast? with _ | c <;>
        rw [hmatch] at hp <;>
        simp only [List.mem_append] at hp <;>
        rcases hp with hp | hp
      · exact absurd hp (hnr p)
      · exact clean_cache_remove_mem m fsb (d ++ model) p hp
      · exact absurd hp (hnr p)
      · exact clean_cache_remove_mem m fsb (d ++ model) p hp
    · intro hzip
      rcases hmatch : (((clean_cache m fsb (d ++ model)).1.listdir
          (d ++ model ++ osSep ++ "checkpoints")).filter
          (fun file => strEndsWith file ".ckpt")).getLast? with _ | c <;>
        exact List.mem_append_right effsb (clean_cache_removes_zip m fsb (d ++ model) hzip)

/-- Claim C9 (witness): on a cache hit where the probed inner path
`d/n/.zip` exists, its removal is performed. -/
theorem c9_cleanup_probed_paths_witness :
    Effect.remove ("d/" ++ ("n" ++ osSep) ++ ".zip") ∈
      (download_model semId [] "/h" fsC9w "n" (some "d/")).2.2 :=
  ((c9_cleanup_probed_paths semId [] "/h" fsC9w "n" "d/" (by decide) (by decide)).1
    (by decide) (by decide)).2 (by decide)

/-- Claim C10: a marker path that exists as a directory rather than a
regular file fails `_check_download`, so the cache short-circuit does not
fire and the download is performed; and if that marker is still not a
regular file afterwards, the run fails with the verification error. -/
theorem c10_directory_marker_fails_check (m : Sem) (fs : FS) (url directory : String)
    (filename extension : Option String) (check_files : List String) (marker e : String)
    (hmem : marker ∈ check_files)
    (hnotfile : fs.isfile (osJoin2 directory marker) = false)
    (hisdir : fs.isdir (osJoin2 directory marker) = true)
    (hext : resolve_extension (osJoin2 directory (filename.getD (_get_filename_from_url url)))
        extension = .ok e) :
    _check_download fs (check_files.map (fun f => osJoin2 directory f)) = false
    ∧ Effect.urlretrieve url (osJoin2 directory (filename.getD (_get_filename_from_url url))) ∈
        (download_file_maybe_extract m fs url directory filename extension check_files).2.2
    ∧ ((download_file_maybe_extract m fs url directory filename extension check_files).2.1.isfile
          (osJoin2 directory marker) = false →
        (download_file_maybe_extract m fs url directory filename extension check_files).1 =
          .error (.valueError downloadFailedMsg)) := by
  have hmem2 : osJoin2 directory marker ∈ check_files.map (fun f => osJoin2 directory f) :=
    List.mem_map_of_mem _ hmem
  have hfalse : _check_download fs (check_files.map (fun f => osJoin2 directory f)) = false := by
    cases h' : _check_download fs (check_files.map (fun f => osJoin2 directory f)) with
    | false => rfl
    | true =>
      unfold _check_download at h'
      exact absurd (List.all_eq_true.mp h' _ hmem2) (by simp [hnotfile])
  have hne : ¬((decide (0 < (check_files.map (fun f => osJoin2 directory f)).length) &&
      _check_download fs (check_files.map (fun f => osJoin2 directory f))) = true) := by
    simp only [hfalse, Bool.and_false]
    exact Bool.false_ne_true
  refine ⟨hfalse, ?_, ?_⟩
  · unfold download_file_maybe_extract
    simp only []
    rw [if_neg hne]
    exact (dfme_body_run m fs url directory _ extension _ e hext).2
  · unfold download_file_maybe_extract
    simp only []
    rw [if_neg hne]
    intro hpost
    rw [(dfme_body_run m fs url directory _ extension _ e hext).1]
    have hfalse2 : _check_download
        (dfme_body m fs url directory
          (osJoin2 directory (filename.getD (_get_filename_from_url url))) extension
          (check_files.map (fun f => osJoin2 directory f))).2.1
        (check_files.map (fun f => osJoin2 directory f)) = false := by
      cases h' : _check_download
          (dfme_body m fs url directory
            (osJoin2 directory (filename.getD (_get_filename_from_url url))) extension
            (check_files.map (fun f => osJoin2 directory f))).2.1
          (check_files.map (fun f => osJoin2 directory f)) with
      | false => rfl
      | true =>
        unfold _check_download at h'
        exact absurd (List.all_eq_true.mp h' _ hmem2) (by simp [hpost])
    simp [hfalse2]

/-- Claim C10 (witness): the marker `mark` exists as a directory under
`d`; the short-circuit fails, the download is in the trace, and the run
ends with the verification error. -/
theorem c10_directory_marker_fails_check_witness :
    _check_download fsC10 (["mark"].map (fun f => osJoin2 "d" f)) = false
    ∧ Effect.urlretrieve "https://x.y/f.zip" (osJoin2 "d" ((some "f.zip" : Option String).getD
        (_get_filename_from_url "https://x.y/f.zip"))) ∈
      (download_file_maybe_extract semId fsC10 "https://x.y/f.zip" "d" (some "f.zip")
        (some "zip") ["mark"]).2.2
    ∧ (download_file_maybe_extract semId fsC10 "https://x.y/f.zip" "d" (some "f.zip")
        (some "zip") ["mark"]).1 = .error (.valueError downloadFailedMsg) := by
  have h := c10_directory_marker_fails_check semId fsC10 "https://x.y/f.zip" "d"
    (some "f.zip") (some "zip") ["mark"] "mark" "zip"
    (by decide) (by decide) (by decide) rfl
  exact ⟨h.1, h.2.1, h.2.2 (by decide)⟩

end CometDL
